import Mathlib

/-!
Verification of `elastic-cloud-billing-exporter` (src/src/state.rs) against its
natural-language specification.

The embedding models:
* the response schemas (`Groups`, `Group`, `DatabaseUsers`, `Clusters`,
  `Cluster`, `ChangeStatus`, `User`, `Role`, `Scope`, `Link`) from
  src/src/state.rs lines 22-102;
* the REST client `State::get` (lines 157-191) over an abstract transport
  (uri -> transport error cause or raw response), with the status
  classification exactly as the source's `match response.status().as_u16()`;
* the per-endpoint fetchers `get_users` / `get_clusters` /
  `get_cluster_status` / `get_groups` (lines 125-155): path formatting,
  the `get` call, and body decoding (the serde decoders are abstract
  functions from raw bodies, since JSON parsing itself is external);
* the collection pass `State::get_metrics` (lines 193-270) as a function
  from a fetch environment to (pass result, list of gauge emissions).
  The tokio fan-out emits into a shared metrics sink; across groups the
  emission interleaving is unspecified, so the pass model collects each
  group's emissions in listing order (every claim here is order-insensitive
  across groups or quantifies over membership).
* the semaphore admission discipline of the fan-out (lines 197-207, 263-267)
  as a small-step transition system, for the concurrency-cap claim.

Gauge values are `f64` in the source; every value the mapper emits is a
small non-negative integer (`results.len() as f64`, `1f64`, and the
ordinals 0/1/2), so values are modelled as `Nat`.  `u16` counters are
modelled as `Nat`; no claim involves wrap-around arithmetic.
-/

namespace Atlas

/-- serde_json's dynamic `Value` type (used only for the `labels` field of
`User`, which the pass never inspects). -/
inductive JsonValue where
  | null : JsonValue
  | bool (b : Bool) : JsonValue
  | num (n : Int) : JsonValue
  | str (s : String) : JsonValue
  | arr (xs : List JsonValue) : JsonValue
  | obj (fields : List (String × JsonValue)) : JsonValue

/-- `Link { href, rel }` (state.rs lines 30-34). -/
structure Link where
  href : String
  rel : String
deriving DecidableEq

/-- `Scope { name, type }` (state.rs lines 98-102). -/
structure Scope where
  name : String
  type : String
deriving DecidableEq

/-- `Role { database_name, role_name }` (state.rs lines 91-96). -/
structure Role where
  databaseName : String
  roleName : String
deriving DecidableEq

/-- `User` (state.rs lines 76-89). -/
structure User where
  awsIAMType : String
  databaseName : String
  groupId : String
  labels : List JsonValue
  ldapAuthType : String
  links : List Link
  roles : List Role
  scopes : List Scope
  username : String
  x509Type : String

/-- `Group` (state.rs lines 36-45). -/
structure Group where
  clusterCount : Nat
  created : String
  id : String
  links : List Link
  name : String
  orgId : String
deriving DecidableEq

/-- `Groups` (state.rs lines 22-28). -/
structure Groups where
  links : List Link
  results : List Group
  totalCount : Nat
deriving DecidableEq

/-- `DatabaseUsers` (state.rs lines 47-53). -/
structure DatabaseUsers where
  links : List Link
  results : List User
  totalCount : Nat

/-- `Cluster { name }` (state.rs lines 63-67). -/
structure Cluster where
  name : String
deriving DecidableEq

/-- `Clusters` (state.rs lines 55-61). -/
structure Clusters where
  links : List Link
  results : List Cluster
  totalCount : Nat
deriving DecidableEq

/-- `ChangeStatus { change_status }` (state.rs lines 70-74). -/
structure ChangeStatus where
  changeStatus : String
deriving DecidableEq

/-- The error type `crate::error::Error` (aliased `RestError` in state.rs).
Its declaring file src/error.rs is not in the corpus; the variants and
their payloads are fixed by the construction sites in state.rs:
`RestError::NotFound`, `::Forbidden`, `::Unauthorized`, `::UnknownCode`
are built with no arguments (unit variants — in particular `UnknownCode`
carries no status code), and `RestError::Hyper(e)` carries the transport
failure cause.  `Malformed` is modelled from the spec: the decode-failure
variant (`DecodeError::Malformed`, spec §4.2/§7) that the `?` conversion
of a `serde_json` error produces. -/
inductive RestError where
  | NotFound : RestError
  | Forbidden : RestError
  | Unauthorized : RestError
  | UnknownCode : RestError
  | Hyper (cause : String) : RestError
  | Malformed (cause : String) : RestError
deriving DecidableEq

/-- `State { client, url }` (state.rs lines 16-20); the HTTPS client is
modelled separately as a `Transport`, so only the base url remains, as the
string that `format!("{}/{}", &self.url, path)` displays it. -/
structure State where
  url : String

/-- A raw HTTP response: status code and body bytes. -/
structure HttpResponse where
  status : Nat
  body : String
deriving DecidableEq

/-- The HTTPS client: one outbound request per call, keyed by the full
request uri; a transport-level failure (DNS, TLS, timeout) is an error
cause, otherwise a raw response comes back. -/
def Transport : Type := String → Except String HttpResponse

/-- The serde_json decoders, one per response schema, as abstract
functions from a raw body to a decoded value or a decode-error cause. -/
structure Decoders where
  groups : String → Except String Groups
  databaseUsers : String → Except String DatabaseUsers
  clusters : String → Except String Clusters
  changeStatus : String → Except String ChangeStatus

/-- The status-classification arm of `State::get` (state.rs lines 176-190):
`404 → NotFound`, `403 → Forbidden`, `401 → Unauthorized`, `200 → Ok(response)`,
anything else → `UnknownCode` (the offending status is only logged, not
stored in the error). -/
def classifyResponse (response : HttpResponse) : Except RestError HttpResponse :=
  match response.status with
  | 404 => .error .NotFound
  | 403 => .error .Forbidden
  | 401 => .error .Unauthorized
  | 200 => .ok response
  | _ => .error .UnknownCode

/-- `State::get` (state.rs lines 157-191).  The requested uri is
`format!("{}/{}", &self.url, path)`; it is returned alongside the result so
that theorems can speak about which uri each fetch hits. -/
def State.get (st : State) (tr : Transport) (path : String) :
    String × Except RestError HttpResponse :=
  let uri := st.url ++ "/" ++ path
  (uri,
    match tr uri with
    | .error e => .error (.Hyper e)
    | .ok response => classifyResponse response)

/-- `State::get_users` (state.rs lines 125-131). -/
def State.getUsers (st : State) (tr : Transport) (dec : Decoders)
    (group : String) : String × Except RestError DatabaseUsers :=
  let path := "groups/" ++ group ++ "/databaseUsers?itemsPerPage=500"
  let out := st.get tr path
  (out.1,
    match out.2 with
    | .error e => .error e
    | .ok body =>
      match dec.databaseUsers body.body with
      | .error m => .error (.Malformed m)
      | .ok value => .ok value)

/-- `State::get_clusters` (state.rs lines 133-139). -/
def State.getClusters (st : State) (tr : Transport) (dec : Decoders)
    (group : String) : String × Except RestError Clusters :=
  let path := "groups/" ++ group ++ "/clusters?itemsPerPage=500"
  let out := st.get tr path
  (out.1,
    match out.2 with
    | .error e => .error e
    | .ok body =>
      match dec.clusters body.body with
      | .error m => .error (.Malformed m)
      | .ok value => .ok value)

/-- `State::get_cluster_status` (state.rs lines 141-147). -/
def State.getClusterStatus (st : State) (tr : Transport) (dec : Decoders)
    (group : String) (cluster : String) : String × Except RestError ChangeStatus :=
  let path := "groups/" ++ group ++ "/clusters/" ++ cluster ++ "/status"
  let out := st.get tr path
  (out.1,
    match out.2 with
    | .error e => .error e
    | .ok body =>
      match dec.changeStatus body.body with
      | .error m => .error (.Malformed m)
      | .ok value => .ok value)

/-- `State::get_groups` (state.rs lines 149-155). -/
def State.getGroups (st : State) (tr : Transport) (dec : Decoders) :
    String × Except RestError Groups :=
  let path := "groups?itemsPerPage=500"
  let out := st.get tr path
  (out.1,
    match out.2 with
    | .error e => .error e
    | .ok body =>
      match dec.groups body.body with
      | .error m => .error (.Malformed m)
      | .ok value => .ok value)

/-- One gauge emission into the metrics sink:
`metrics::gauge!(name, value, &labels)`.  Labels keep the source's
insertion order.  Values are the small naturals the mapper produces
(cast to `f64` at the sink boundary in the source). -/
structure Emission where
  name : String
  value : Nat
  labels : List (String × String)
deriving DecidableEq

/-- The fetch environment one collection pass runs against: the outcome
of each fetch the pass can issue, per endpoint.  `Env.ofState` produces
it from the REST-client layer; quantifying over `Env` quantifies over
every behaviour of transport plus decoding. -/
structure Env where
  groups : Except RestError Groups
  users : String → Except RestError DatabaseUsers
  clusters : String → Except RestError Clusters
  status : String → String → Except RestError ChangeStatus

/-- The fetch environment realised by the REST-client layer: each field is
the corresponding fetcher of state.rs run against the given transport and
decoders. -/
def Env.ofState (st : State) (tr : Transport) (dec : Decoders) : Env where
  groups := (st.getGroups tr dec).2
  users := fun group => (st.getUsers tr dec group).2
  clusters := fun group => (st.getClusters tr dec group).2
  status := fun group cluster => (st.getClusterStatus tr dec group cluster).2

/-- The ordinal of a change-status string (state.rs lines 250-254):
`"APPLIED" => 0, "PENDING" => 1, _ => 2`. -/
def statusOrdinal (s : String) : Nat :=
  match s with
  | "APPLIED" => 0
  | "PENDING" => 1
  | _ => 2

/-- The scopes a user is emitted under (state.rs lines 217-225): an empty
`scopes` vector is replaced by the single synthesized scope
`Scope { name: "all", type: "CLUSTER" }`; otherwise the user's own scopes. -/
def userScopes (u : User) : List Scope :=
  match u.scopes.length with
  | 0 => [{ name := "all", type := "CLUSTER" }]
  | _ => u.scopes

/-- The `atlas_exporter_project_users_total` emission of one group
(state.rs lines 212-215). -/
def totalEmission (g : Group) (du : DatabaseUsers) : Emission where
  name := "atlas_exporter_project_users_total"
  value := du.results.length
  labels := [("project", g.name)]

/-- One `atlas_exporter_project_user` emission (state.rs lines 227-234). -/
def userEmission (g : Group) (u : User) (scope : Scope) : Emission where
  name := "atlas_exporter_project_user"
  value := 1
  labels := [("username", u.username), ("project", g.name), ("scope", scope.name)]

/-- One `atlas_exporter_cluster_status` emission (state.rs lines 245-255). -/
def statusEmission (g : Group) (cluster : String) (status : ChangeStatus) : Emission where
  name := "atlas_exporter_cluster_status"
  value := statusOrdinal status.changeStatus
  labels := [("project", g.name), ("cluster", cluster)]

/-- The users step of one group's task (state.rs lines 210-238): on a
successful users fetch, the total gauge followed by one `project_user`
gauge per (user, scope) pair; on failure the error is logged and nothing
is emitted. -/
def usersEmissions (env : Env) (g : Group) : List Emission :=
  match env.users g.id with
  | .ok du => totalEmission g du ::
      du.results.flatMap (fun u => (userScopes u).map (userEmission g u))
  | .error _ => []

/-- The per-cluster status step (state.rs lines 244-258): on a successful
status fetch one gauge with the status ordinal; on failure the error is
logged and nothing is emitted. -/
def statusEmissions (env : Env) (g : Group) (c : Cluster) : List Emission :=
  match env.status g.id c.name with
  | .ok status => [statusEmission g c.name status]
  | .error _ => []

/-- The clusters step of one group's task (state.rs lines 240-262): on a
successful clusters listing, the status step runs for each listed cluster;
if the listing fetch fails the error is logged and every status lookup for
the group is skipped. -/
def clustersEmissions (env : Env) (g : Group) : List Emission :=
  match env.clusters g.id with
  | .ok cl => cl.results.flatMap (statusEmissions env g)
  | .error _ => []

/-- One group's spawned task (state.rs lines 206-263): the users step then
the clusters step, each `match`ing its own fetch result so a failure in
one leaves the other to run. -/
def groupTask (env : Env) (g : Group) : List Emission :=
  usersEmissions env g ++ clustersEmissions env g

/-- `State::get_metrics` (state.rs lines 193-270): the groups fetch is
propagated with `?` on failure (no emission happens); on success one task
per listed group runs to completion and the pass returns `Ok(())`.  The
emissions are collected in listing order (across groups the source's
interleaving into the sink is unspecified; all claims below are
insensitive to it). -/
def getMetrics (env : Env) : Except RestError Unit × List Emission :=
  match env.groups with
  | .error e => (.error e, [])
  | .ok body => (.ok (), body.results.flatMap (groupTask env))

/-! ### The fan-out admission discipline

`get_metrics` creates `Semaphore::new(8)` (state.rs line 198) and, for each
group, awaits `acquire_owned()` before spawning that group's task
(lines 203-206).  The permit is moved into the task (`let _permit = permit`,
line 207) and is dropped only when the task's whole body — the users fetch,
the clusters fetch, and every per-cluster status fetch — has completed
(line 263).  So every HTTP call of a group's task happens while the task
holds a permit.  The discipline is modelled as a transition system over the
counts of tasks in each phase; `working` counts the tasks currently holding
a permit. -/

/-- The fan-out capacity: `Semaphore::new(8)` (state.rs line 198). -/
def semaphoreCapacity : Nat := 8

/-- Scheduler state of one pass: how many of the pass's per-group tasks are
still awaiting a permit, currently hold a permit (and may be issuing HTTP
calls), or have finished all their sub-collections and released their
permit. -/
structure SchedState where
  queued : Nat
  working : Nat
  finished : Nat
deriving DecidableEq

/-- One scheduler transition: a queued task is admitted only while fewer
than `semaphoreCapacity` permits are out (the semaphore blocks otherwise),
and a working task releases its permit only when it finishes. -/
inductive SchedStep : SchedState → SchedState → Prop where
  | acquire (s : SchedState) : 0 < s.queued → s.working < semaphoreCapacity →
      SchedStep s ⟨s.queued - 1, s.working + 1, s.finished⟩
  | finish (s : SchedState) : 0 < s.working →
      SchedStep s ⟨s.queued, s.working - 1, s.finished + 1⟩

/-- The states one pass over `n` groups can reach: initially all `n` tasks
are queued and no permit is out. -/
inductive SchedReach (n : Nat) : SchedState → Prop where
  | init : SchedReach n ⟨n, 0, 0⟩
  | step {s t : SchedState} : SchedReach n s → SchedStep s t → SchedReach n t

/-- The statement of claim C4's "any other status yields UnknownStatus
carrying that status code": some function could recover the offending
status code from the error that `get` classifies it into. -/
def UnknownCarriesStatus : Prop :=
  ∃ recover : RestError → Nat,
    ∀ (s : Nat) (b : String), s ≠ 200 → s ≠ 404 → s ≠ 403 → s ≠ 401 →
      ∃ err, classifyResponse ⟨s, b⟩ = .error err ∧ recover err = s

/-! ### Concrete fixtures

The scenario of spec §8: the listing returns two groups; group A's
user-listing fetch returns 401, its cluster listing has one cluster `X`
whose status is `"APPLIED"`; group B's user listing has one user (`bob`)
with no scopes, and no clusters. -/

/-- Scenario group A. -/
def gA : Group :=
  { clusterCount := 1, created := "2021-01-01", id := "gidA", links := [],
    name := "A", orgId := "org" }

/-- Scenario group B. -/
def gB : Group :=
  { clusterCount := 0, created := "2021-01-01", id := "gidB", links := [],
    name := "B", orgId := "org" }

/-- Scenario user of group B, with an empty scopes vector. -/
def bob : User :=
  { awsIAMType := "NONE", databaseName := "admin", groupId := "gidB",
    labels := [], ldapAuthType := "NONE", links := [], roles := [],
    scopes := [], username := "bob", x509Type := "NONE" }

/-- Scenario user listing of group B. -/
def duB : DatabaseUsers := { links := [], results := [bob], totalCount := 1 }

/-- A user with two scopes of her own. -/
def alice : User :=
  { awsIAMType := "NONE", databaseName := "admin", groupId := "gidA",
    labels := [], ldapAuthType := "NONE", links := [], roles := [],
    scopes := [{ name := "S1", type := "CLUSTER" }, { name := "S2", type := "CLUSTER" }],
    username := "alice", x509Type := "NONE" }

/-- Scenario top-level listing. -/
def scenarioGroups : Groups := { links := [], results := [gA, gB], totalCount := 2 }

/-- The scenario fetch environment of spec §8. -/
def scenarioEnv : Env where
  groups := .ok scenarioGroups
  users := fun g =>
    if g = "gidA" then .error .Unauthorized
    else if g = "gidB" then .ok duB
    else .error .NotFound
  clusters := fun g =>
    if g = "gidA" then .ok { links := [], results := [⟨"X"⟩], totalCount := 1 }
    else if g = "gidB" then .ok { links := [], results := [], totalCount := 0 }
    else .error .NotFound
  status := fun g c =>
    if g = "gidA" ∧ c = "X" then .ok ⟨"APPLIED"⟩ else .error .NotFound

/-- An environment whose top-level groups fetch fails. -/
def errEnv : Env where
  groups := .error .Forbidden
  users := fun _ => .ok duB
  clusters := fun _ => .ok { links := [], results := [], totalCount := 0 }
  status := fun _ _ => .ok ⟨"APPLIED"⟩

/-! ### C8: one value per (metric name, label set) within a pass

All labels are keyed by the group's *name*, not its id, so two distinct
groups with equal names write the same label set with possibly different
values.  With pairwise distinct group names the mapper is functional. -/

/-- The statement of claim C8 for one environment: within the pass the
mapper never emits two different values for the same (name, label-set)
pair. -/
def EmissionValuesFunctional (env : Env) : Prop :=
  ∀ e1 ∈ (getMetrics env).2, ∀ e2 ∈ (getMetrics env).2,
    e1.name = e2.name → e1.labels = e2.labels → e1.value = e2.value

/-- First duplicate-name group (id `id1`, name `dup`, no users). -/
def gDup1 : Group :=
  { clusterCount := 0, created := "2021-01-01", id := "id1", links := [],
    name := "dup", orgId := "org" }

/-- Second duplicate-name group (id `id2`, name `dup`, one user). -/
def gDup2 : Group :=
  { clusterCount := 0, created := "2021-01-01", id := "id2", links := [],
    name := "dup", orgId := "org" }

/-- An empty user listing. -/
def duEmpty : DatabaseUsers := { links := [], results := [], totalCount := 0 }

/-- An environment whose top-level listing holds two distinct groups with
equal names, whose user listings have different sizes. -/
def dupEnv : Env where
  groups := .ok { links := [], results := [gDup1, gDup2], totalCount := 2 }
  users := fun g =>
    if g = "id1" then .ok duEmpty
    else if g = "id2" then .ok duB
    else .error .NotFound
  clusters := fun _ => .error .NotFound
  status := fun _ _ => .error .NotFound

/-- C1: for every collection pass over N entities, the number of
simultaneously active per-entity sub-collection tasks never exceeds the
fixed cap of 8: a semaphore permit is acquired before any HTTP call is
issued for an entity (all HTTP happens in the `working` phase) and is
released only when all of that entity's sub-collections have completed, so
in every reachable scheduler state at most `semaphoreCapacity = 8` tasks
are active. -/
theorem concurrency_cap (n : Nat) (s : SchedState) (h : SchedReach n s) :
    s.working ≤ semaphoreCapacity := by
  induction h with
  | init => exact Nat.zero_le _
  | step _ hstep ih =>
    cases hstep with
    | acquire hq hw => exact hw
    | finish hw => exact Nat.le_trans (Nat.sub_le _ _) ih

/-- C1 witness: a pass over one group, after admitting that group's task,
has one active task, within the cap. -/
theorem concurrency_cap_witness :
    SchedReach 1 ⟨0, 1, 0⟩ ∧ (SchedState.mk 0 1 0).working ≤ semaphoreCapacity := by
  have hr : SchedReach 1 ⟨0, 1, 0⟩ :=
    SchedReach.step SchedReach.init (SchedStep.acquire ⟨1, 0, 0⟩ (by decide) (by decide))
  exact ⟨hr, concurrency_cap 1 ⟨0, 1, 0⟩ hr⟩

/-! ### C4: error classification of `State::get` -/

/-- C4 counterexample: statuses 500 and 503 classify to the same error
value `UnknownCode`, so no function can recover the status code from the
error — the error does not carry the code (the source only logs it). -/
theorem get_unknown_does_not_carry_status : ¬ UnknownCarriesStatus := by
  rintro ⟨recover, h⟩
  obtain ⟨e1, he1, hr1⟩ := h 500 "" (by decide) (by decide) (by decide) (by decide)
  obtain ⟨e2, he2, hr2⟩ := h 503 "" (by decide) (by decide) (by decide) (by decide)
  have h1 : e1 = RestError.UnknownCode := by
    have h := he1
    simp only [classifyResponse] at h
    exact (Except.error.inj h).symm
  have h2 : e2 = RestError.UnknownCode := by
    have h := he2
    simp only [classifyResponse] at h
    exact (Except.error.inj h).symm
  rw [h1] at hr1
  rw [h2] at hr2
  omega

/-- C4 amended: for every call to `get(path)`, a transport-level failure
yields `Hyper` carrying the cause, and otherwise the result is classified
by HTTP status exactly as: 404 yields `NotFound`, 403 yields `Forbidden`,
401 yields `Unauthorized`, 200 yields success with the response passed
through, and any other status yields the unit error `UnknownCode`, which
does not carry the status code. -/
theorem get_classification (st : State) (tr : Transport) (path b cause : String) (s : Nat) :
    (tr (st.url ++ "/" ++ path) = .error cause →
      (st.get tr path).2 = .error (.Hyper cause))
    ∧ (tr (st.url ++ "/" ++ path) = .ok ⟨404, b⟩ →
      (st.get tr path).2 = .error .NotFound)
    ∧ (tr (st.url ++ "/" ++ path) = .ok ⟨403, b⟩ →
      (st.get tr path).2 = .error .Forbidden)
    ∧ (tr (st.url ++ "/" ++ path) = .ok ⟨401, b⟩ →
      (st.get tr path).2 = .error .Unauthorized)
    ∧ (tr (st.url ++ "/" ++ path) = .ok ⟨200, b⟩ →
      (st.get tr path).2 = .ok ⟨200, b⟩)
    ∧ (s ≠ 404 → s ≠ 403 → s ≠ 401 → s ≠ 200 →
      tr (st.url ++ "/" ++ path) = .ok ⟨s, b⟩ →
      (st.get tr path).2 = .error .UnknownCode) := by
  refine ⟨?_, ?_, ?_, ?_, ?_, ?_⟩
  · intro h; simp [State.get, h]
  · intro h; simp [State.get, h, classifyResponse]
  · intro h; simp [State.get, h, classifyResponse]
  · intro h; simp [State.get, h, classifyResponse]
  · intro h; simp [State.get, h, classifyResponse]
  · intro h404 h403 h401 h200 h
    simp only [State.get, h]
    unfold classifyResponse
    split
    · simp_all
    · simp_all
    · simp_all
    · simp_all
    · rfl

/-- C4 amended, witness: each classification branch at a concrete
transport — a transport failure carries its cause, 404/403/401/200 map to
their errors or to success with the body passed through, and status 500
yields the unit error `UnknownCode`. -/
theorem get_classification_witness :
    (State.get ⟨"http://base"⟩ (fun _ => .error "dns") "p").2 = .error (.Hyper "dns")
    ∧ (State.get ⟨"http://base"⟩ (fun _ => .ok ⟨404, "x"⟩) "p").2 = .error .NotFound
    ∧ (State.get ⟨"http://base"⟩ (fun _ => .ok ⟨403, "x"⟩) "p").2 = .error .Forbidden
    ∧ (State.get ⟨"http://base"⟩ (fun _ => .ok ⟨401, "x"⟩) "p").2 = .error .Unauthorized
    ∧ (State.get ⟨"http://base"⟩ (fun _ => .ok ⟨200, "x"⟩) "p").2 = .ok ⟨200, "x"⟩
    ∧ (State.get ⟨"http://base"⟩ (fun _ => .ok ⟨500, "x"⟩) "p").2 = .error .UnknownCode :=
  ⟨(get_classification ⟨"http://base"⟩ (fun _ => .error "dns") "p" "x" "dns" 0).1 rfl,
   (get_classification ⟨"http://base"⟩ (fun _ => .ok ⟨404, "x"⟩) "p" "x" "c" 0).2.1 rfl,
   (get_classification ⟨"http://base"⟩ (fun _ => .ok ⟨403, "x"⟩) "p" "x" "c" 0).2.2.1 rfl,
   (get_classification ⟨"http://base"⟩ (fun _ => .ok ⟨401, "x"⟩) "p" "x" "c" 0).2.2.2.1 rfl,
   (get_classification ⟨"http://base"⟩ (fun _ => .ok ⟨200, "x"⟩) "p" "x" "c" 0).2.2.2.2.1 rfl,
   (get_classification ⟨"http://base"⟩ (fun _ => .ok ⟨500, "x"⟩) "p" "x" "c" 500).2.2.2.2.2
     (by decide) (by decide) (by decide) (by decide) rfl⟩

/-! ### C5: change-status ordinals -/

/-- C5: the emitted `cluster_status` ordinal is 0 for `"APPLIED"`, 1 for
`"PENDING"`, and 2 for every other string; and every successfully fetched
status — whatever its string — yields exactly one emission, so an
unrecognized status string never fails the pass. -/
theorem cluster_status_ordinal :
    statusOrdinal "APPLIED" = 0 ∧ statusOrdinal "PENDING" = 1
    ∧ (∀ s, s ≠ "APPLIED" → s ≠ "PENDING" → statusOrdinal s = 2)
    ∧ (∀ (env : Env) (g : Group) (c : Cluster) (status : ChangeStatus),
        env.status g.id c.name = .ok status →
        statusEmissions env g c = [statusEmission g c.name status]) := by
  refine ⟨rfl, rfl, ?_, ?_⟩
  · intro s h1 h2
    unfold statusOrdinal
    split
    · simp_all
    · simp_all
    · rfl
  · intro env g c status h
    simp [statusEmissions, h]

/-- C5 witness: `"WORKING"` falls in the 2 bucket, and the scenario's
`"APPLIED"` status of cluster X yields its single emission. -/
theorem cluster_status_ordinal_witness :
    statusOrdinal "WORKING" = 2
    ∧ statusEmissions scenarioEnv gA ⟨"X"⟩ = [statusEmission gA "X" ⟨"APPLIED"⟩] :=
  ⟨cluster_status_ordinal.2.2.1 "WORKING" (by decide) (by decide),
   cluster_status_ordinal.2.2.2 scenarioEnv gA ⟨"X"⟩ ⟨"APPLIED"⟩ rfl⟩

/-! ### C6: per-user scope emissions -/

/-- C6: a user whose scopes sequence is empty gets the single synthesized
scope `{name: "all", type: "CLUSTER"}` and hence exactly one `project_user`
emission, with value 1 and scope label `"all"`; a user with a non-empty
scopes sequence gets one `project_user` emission per scope, each with
value 1 and that scope's name as the scope label. -/
theorem project_user_emissions (g : Group) (u : User) :
    (u.scopes = [] →
      userScopes u = [{ name := "all", type := "CLUSTER" }]
      ∧ (userScopes u).map (userEmission g u) =
        [{ name := "atlas_exporter_project_user", value := 1,
           labels := [("username", u.username), ("project", g.name), ("scope", "all")] }])
    ∧ (u.scopes ≠ [] →
      (userScopes u).map (userEmission g u) = u.scopes.map (userEmission g u))
    ∧ (∀ scope, userEmission g u scope =
        { name := "atlas_exporter_project_user", value := 1,
          labels := [("username", u.username), ("project", g.name),
                     ("scope", scope.name)] }) := by
  refine ⟨?_, ?_, fun _ => rfl⟩
  · intro h
    constructor
    · unfold userScopes
      rw [h]
      rfl
    · unfold userScopes
      rw [h]
      rfl
  · intro h
    cases hs : u.scopes with
    | nil => exact absurd hs h
    | cons a l =>
      unfold userScopes
      rw [hs]
      rfl

/-- C6 witness: user `bob` has no scopes; his single emission carries
scope `"all"`, and the synthesized scope is `{name: "all", type: "CLUSTER"}`.
User `alice` has two scopes of her own and gets one emission per scope. -/
theorem project_user_emissions_witness :
    userScopes bob = [{ name := "all", type := "CLUSTER" }]
    ∧ (userScopes bob).map (userEmission gB bob) =
      [{ name := "atlas_exporter_project_user", value := 1,
         labels := [("username", "bob"), ("project", "B"), ("scope", "all")] }]
    ∧ (userScopes alice).map (userEmission gA alice) =
        alice.scopes.map (userEmission gA alice) :=
  ⟨((project_user_emissions gB bob).1 rfl).1, ((project_user_emissions gB bob).1 rfl).2,
   (project_user_emissions gA alice).2.1 (by decide)⟩

/-! ### Shape lemmas: what one group's task can emit -/

/-- Everything the users step of group `g` emits is either the single
total gauge or a per-(user, scope) gauge, and only when the users fetch
succeeded. -/
theorem mem_usersEmissions (env : Env) (g : Group) (e : Emission)
    (he : e ∈ usersEmissions env g) :
    ∃ du, env.users g.id = .ok du ∧
      (e = totalEmission g du ∨
        ∃ u scope, u ∈ du.results ∧ scope ∈ userScopes u ∧ e = userEmission g u scope) := by
  unfold usersEmissions at he
  cases hu : env.users g.id with
  | error err => rw [hu] at he; simp at he
  | ok du =>
    rw [hu] at he
    refine ⟨du, rfl, ?_⟩
    rcases List.mem_cons.mp he with h | h
    · exact Or.inl h
    · obtain ⟨u, hu', hm⟩ := List.mem_flatMap.mp h
      obtain ⟨scope, hsc, rfl⟩ := List.mem_map.mp hm
      exact Or.inr ⟨u, scope, hu', hsc, rfl⟩

/-- Everything the clusters step of group `g` emits is a status gauge for
some cluster name `c`, produced from the (unique) status the environment
returns for `(g.id, c)`. -/
theorem mem_clustersEmissions (env : Env) (g : Group) (e : Emission)
    (he : e ∈ clustersEmissions env g) :
    ∃ (c : String) (status : ChangeStatus),
      env.status g.id c = .ok status ∧ e = statusEmission g c status := by
  unfold clustersEmissions at he
  cases hcl : env.clusters g.id with
  | error err => rw [hcl] at he; simp at he
  | ok cl =>
    rw [hcl] at he
    obtain ⟨c, hc, hm⟩ := List.mem_flatMap.mp he
    unfold statusEmissions at hm
    cases hst : env.status g.id c.name with
    | error err => rw [hst] at hm; simp at hm
    | ok status =>
      rw [hst] at hm
      simp only [List.mem_singleton] at hm
      exact ⟨c.name, status, hst, hm⟩

/-! ### C7: the per-entity total gauge -/

/-- C7: for every entity whose user-listing fetch succeeds, that entity's
task emits exactly one `project_users_total` gauge, and its value is the
number of entries in the listing's results sequence. -/
theorem project_users_total_count (env : Env) (g : Group) (du : DatabaseUsers)
    (h : env.users g.id = .ok du) :
    (groupTask env g).filter
        (fun e => e.name == "atlas_exporter_project_users_total")
      = [totalEmission g du]
    ∧ (totalEmission g du).value = du.results.length := by
  refine ⟨?_, rfl⟩
  unfold groupTask
  rw [List.filter_append]
  have hu : usersEmissions env g =
      totalEmission g du ::
        du.results.flatMap (fun u => (userScopes u).map (userEmission g u)) := by
    simp [usersEmissions, h]
  rw [hu, List.filter_cons]
  have htail :
      (du.results.flatMap fun u => (userScopes u).map (userEmission g u)).filter
        (fun e => e.name == "atlas_exporter_project_users_total") = [] := by
    rw [List.filter_eq_nil_iff]
    intro e he
    obtain ⟨u, _, hm⟩ := List.mem_flatMap.mp he
    obtain ⟨scope, _, rfl⟩ := List.mem_map.mp hm
    simp [userEmission]
  have hclusters : (clustersEmissions env g).filter
      (fun e => e.name == "atlas_exporter_project_users_total") = [] := by
    rw [List.filter_eq_nil_iff]
    intro e he
    obtain ⟨c, status, _, rfl⟩ := mem_clustersEmissions env g e he
    simp [statusEmission]
  rw [htail, hclusters]
  rfl

/-- C7 witness: in the scenario, group B's task emits the single total
gauge with value 1 (`bob` is its one listed user). -/
theorem project_users_total_count_witness :
    (groupTask scenarioEnv gB).filter
        (fun e => e.name == "atlas_exporter_project_users_total")
      = [totalEmission gB duB]
    ∧ (totalEmission gB duB).value = 1 :=
  project_users_total_count scenarioEnv gB duB rfl

/-! ### C2: failure isolation inside and across entity tasks -/

/-- C2: within one entity's task, the users step and the clusters step
each `match` their own fetch result, so (a) the task is always their
concatenation; (b) a users-fetch failure leaves the clusters step's
emissions intact; (c) a clusters-listing failure skips every cluster-status
lookup of the entity; (d) a single cluster's status failure only drops that
cluster's gauge, the listing's other clusters still map through the status
step; (e) the task reads the environment only at the entity's own id, so a
failure in another entity's fetches cannot change this entity's emissions;
and (f) when the listing succeeded the pass's emissions are exactly the
concatenation of each listed entity's task. -/
theorem entity_failure_isolation (env : Env) (g : Group) :
    groupTask env g = usersEmissions env g ++ clustersEmissions env g
    ∧ (∀ e, env.users g.id = .error e → groupTask env g = clustersEmissions env g)
    ∧ (∀ e, env.clusters g.id = .error e → clustersEmissions env g = [])
    ∧ (∀ c e, env.status g.id c.name = .error e → statusEmissions env g c = [])
    ∧ (∀ cl, env.clusters g.id = .ok cl →
        clustersEmissions env g = cl.results.flatMap (statusEmissions env g))
    ∧ (∀ env' : Env, env'.users g.id = env.users g.id →
        env'.clusters g.id = env.clusters g.id →
        (∀ c, env'.status g.id c = env.status g.id c) →
        groupTask env' g = groupTask env g)
    ∧ (∀ gs, env.groups = .ok gs →
        (getMetrics env).2 = gs.results.flatMap (groupTask env)) := by
  refine ⟨rfl, ?_, ?_, ?_, ?_, ?_, ?_⟩
  · intro e h
    unfold groupTask
    rw [show usersEmissions env g = [] by simp [usersEmissions, h]]
    rfl
  · intro e h
    simp [clustersEmissions, h]
  · intro c e h
    simp [statusEmissions, h]
  · intro cl h
    simp [clustersEmissions, h]
  · intro env' hu hcl hst
    have hue : usersEmissions env' g = usersEmissions env g := by
      unfold usersEmissions
      rw [hu]
    have hse : statusEmissions env' g = statusEmissions env g := by
      funext c
      unfold statusEmissions
      rw [hst c.name]
    have hce : clustersEmissions env' g = clustersEmissions env g := by
      unfold clustersEmissions
      rw [hcl, hse]
    unfold groupTask
    rw [hue, hce]
  · intro gs h
    simp [getMetrics, h]

/-- C2 witness: in the scenario, group A's 401 on the users fetch leaves
its clusters step intact (the task equals its clusters emissions, here the
single `APPLIED` gauge of cluster X), and group B's emissions are
unaffected when group A's oracles are swapped for failing ones. -/
theorem entity_failure_isolation_witness :
    groupTask scenarioEnv gA = clustersEmissions scenarioEnv gA
    ∧ groupTask
        { scenarioEnv with
          users := fun g => if g = "gidA" then .error .NotFound else scenarioEnv.users g,
          clusters := fun g => if g = "gidA" then .error .NotFound else scenarioEnv.clusters g }
        gB = groupTask scenarioEnv gB :=
  ⟨(entity_failure_isolation scenarioEnv gA).2.1 .Unauthorized rfl,
   (entity_failure_isolation scenarioEnv gB).2.2.2.2.2.1 _ rfl rfl (fun _ => rfl)⟩

/-! ### C3 and C10: pass-level error behaviour -/

/-- C3: when the top-level groups fetch fails the pass aborts with that
error reported to the caller and zero emissions; when it succeeds, the
pass publishes exactly the metrics the per-entity tasks computed (a
partially failed pass still publishes everything it successfully
computed). -/
theorem pass_abort_or_publish (env : Env) :
    (∀ e, env.groups = .error e → getMetrics env = (.error e, []))
    ∧ (∀ gs, env.groups = .ok gs →
        getMetrics env = (.ok (), gs.results.flatMap (groupTask env))) := by
  constructor
  · intro e h
    simp [getMetrics, h]
  · intro gs h
    simp [getMetrics, h]

/-- C3 witness: a failing top-level fetch yields the error and no
emissions; the spec §8 scenario (A's users fetch 401, otherwise partial
success) still publishes its three computed gauges — cluster X's
`APPLIED` status for A, and B's total and per-user gauges — with no
`project_users_total` for A. -/
theorem pass_abort_or_publish_witness :
    getMetrics errEnv = (.error .Forbidden, [])
    ∧ getMetrics scenarioEnv =
        (.ok (), [statusEmission gA "X" ⟨"APPLIED"⟩,
                  totalEmission gB duB,
                  userEmission gB bob { name := "all", type := "CLUSTER" }])
    ∧ (getMetrics scenarioEnv).2.filter
        (fun e => e.name == "atlas_exporter_project_users_total"
          && decide (("project", "A") ∈ e.labels)) = [] := by
  refine ⟨(pass_abort_or_publish errEnv).1 .Forbidden rfl, ?_, ?_⟩
  · have h := (pass_abort_or_publish scenarioEnv).2 scenarioGroups rfl
    rw [h]
    rfl
  · have h := (pass_abort_or_publish scenarioEnv).2 scenarioGroups rfl
    rw [h]
    rfl

/-- C10: whenever the top-level groups fetch succeeds, `get_metrics`
returns `Ok(())` unconditionally — no error inside any entity's
sub-collections reaches the caller (the per-step `match`es only log). -/
theorem pass_ok_despite_suberrors (env : Env) (gs : Groups)
    (h : env.groups = .ok gs) : (getMetrics env).1 = .ok () := by
  simp [getMetrics, h]

/-- C10 witness: the scenario pass contains failing sub-fetches (A's users
fetch is 401, every unknown status fetch fails) yet returns `Ok(())`. -/
theorem pass_ok_despite_suberrors_witness :
    (getMetrics scenarioEnv).1 = .ok ()
    ∧ scenarioEnv.users gA.id = .error .Unauthorized :=
  ⟨pass_ok_despite_suberrors scenarioEnv scenarioGroups rfl, rfl⟩

/-! ### C9: request uris -/

/-- C9: every fetch requests the base url concatenated (not merged, via
`format!("{}/{}", url, path)`) with its relative path, and the relative
paths are exactly the documented shapes, with `itemsPerPage=500`:
`groups?itemsPerPage=500`, `groups/{id}/databaseUsers?itemsPerPage=500`,
`groups/{id}/clusters?itemsPerPage=500`, and
`groups/{id}/clusters/{cluster}/status`. -/
theorem request_uris (st : State) (tr : Transport) (dec : Decoders)
    (group cluster : String) :
    (st.getGroups tr dec).1 = st.url ++ "/" ++ "groups?itemsPerPage=500"
    ∧ (st.getUsers tr dec group).1 =
        st.url ++ "/" ++ ("groups/" ++ group ++ "/databaseUsers?itemsPerPage=500")
    ∧ (st.getClusters tr dec group).1 =
        st.url ++ "/" ++ ("groups/" ++ group ++ "/clusters?itemsPerPage=500")
    ∧ (st.getClusterStatus tr dec group cluster).1 =
        st.url ++ "/" ++ ("groups/" ++ group ++ "/clusters/" ++ cluster ++ "/status") :=
  ⟨rfl, rfl, rfl, rfl⟩

/-- C8 counterexample: with two distinct listed entities both named
`dup`, one with 0 users and one with 1 user, the pass emits
`project_users_total{project="dup"}` twice, with values 0 and 1 — the
same (name, label-set) pair carries two different values. -/
theorem emission_value_collision : ¬ EmissionValuesFunctional dupEnv := by
  intro h
  have h01 := h (totalEmission gDup1 duEmpty) (by decide)
    (totalEmission gDup2 duB) (by decide) rfl rfl
  exact absurd h01 (by decide)

/-- Inside one group's task, every label set carries the key `"project"`
exactly once, with the group's name as its value. -/
theorem mem_groupTask_project (env : Env) (g : Group) (e : Emission)
    (he : e ∈ groupTask env g) :
    ("project", g.name) ∈ e.labels
    ∧ ∀ v, ("project", v) ∈ e.labels → v = g.name := by
  rcases List.mem_append.mp he with hu | hc
  · obtain ⟨du, _, hshape⟩ := mem_usersEmissions env g e hu
    rcases hshape with rfl | ⟨u, scope, _, _, rfl⟩
    · constructor
      · simp [totalEmission]
      · intro v hv
        simp [totalEmission] at hv
        exact hv
    · constructor
      · simp [userEmission]
      · intro v hv
        simp [userEmission] at hv
        exact hv
  · obtain ⟨c, status, _, rfl⟩ := mem_clustersEmissions env g e hc
    constructor
    · simp [statusEmission]
    · intro v hv
      simp [statusEmission] at hv
      exact hv

/-- Within one group's task the mapper is functional: the total gauge is
unique, every per-user gauge has value 1, and a status gauge's value is
determined by its cluster label through the environment. -/
theorem groupTask_functional (env : Env) (g : Group) :
    ∀ e1 ∈ groupTask env g, ∀ e2 ∈ groupTask env g,
      e1.name = e2.name → e1.labels = e2.labels → e1.value = e2.value := by
  intro e1 h1 e2 h2 hname hlab
  have shape : ∀ e ∈ groupTask env g,
      (∃ du, env.users g.id = .ok du ∧ e = totalEmission g du)
      ∨ (∃ u scope, e = userEmission g u scope)
      ∨ (∃ c status, env.status g.id c = .ok status ∧ e = statusEmission g c status) := by
    intro e he
    rcases List.mem_append.mp he with hu | hc
    · obtain ⟨du, hok, hshape⟩ := mem_usersEmissions env g e hu
      rcases hshape with rfl | ⟨u, scope, _, _, rfl⟩
      · exact Or.inl ⟨du, hok, rfl⟩
      · exact Or.inr (Or.inl ⟨u, scope, rfl⟩)
    · obtain ⟨c, status, hok, rfl⟩ := mem_clustersEmissions env g e hc
      exact Or.inr (Or.inr ⟨c, status, hok, rfl⟩)
  rcases shape e1 h1 with ⟨du1, hok1, rfl⟩ | ⟨u1, sc1, rfl⟩ | ⟨c1, st1, hok1, rfl⟩ <;>
    rcases shape e2 h2 with ⟨du2, hok2, rfl⟩ | ⟨u2, sc2, rfl⟩ | ⟨c2, st2, hok2, rfl⟩
  · have : du1 = du2 := Except.ok.inj (hok1.symm.trans hok2)
    rw [this]
  · exact absurd hname (by simp [totalEmission, userEmission])
  · exact absurd hname (by simp [totalEmission, statusEmission])
  · exact absurd hname (by simp [totalEmission, userEmission])
  · rfl
  · exact absurd hname (by simp [userEmission, statusEmission])
  · exact absurd hname (by simp [totalEmission, statusEmission])
  · exact absurd hname (by simp [userEmission, statusEmission])
  · have hc : c1 = c2 := by
      simp [statusEmission] at hlab
      exact hlab
    subst hc
    have : st1 = st2 := Except.ok.inj (hok1.symm.trans hok2)
    rw [this]

/-- Over a listing with pairwise-distinct group names, the concatenation
of the per-group tasks is functional in (name, label set): distinct groups
write distinct `"project"` label values, and each task is functional. -/
theorem flatMap_groupTask_functional (env : Env) :
    ∀ gs : List Group, (gs.map Group.name).Nodup →
      ∀ e1 ∈ gs.flatMap (groupTask env), ∀ e2 ∈ gs.flatMap (groupTask env),
        e1.name = e2.name → e1.labels = e2.labels → e1.value = e2.value := by
  intro gs
  induction gs with
  | nil =>
    intro _ e1 h1
    simp at h1
  | cons g rest ih =>
    intro hnd e1 h1 e2 h2 hname hlab
    rw [List.flatMap_cons] at h1 h2
    rw [List.map_cons, List.nodup_cons] at hnd
    obtain ⟨hgnot, hndrest⟩ := hnd
    have cross : ∀ ea ∈ groupTask env g, ∀ eb ∈ rest.flatMap (groupTask env),
        ea.labels = eb.labels → False := by
      intro ea ha eb hb hab
      obtain ⟨g', hg', hmem⟩ := List.mem_flatMap.mp hb
      have hp1 := (mem_groupTask_project env g ea ha).1
      rw [hab] at hp1
      have : g.name = g'.name := (mem_groupTask_project env g' eb hmem).2 g.name hp1
      rw [this] at hgnot
      exact hgnot (List.mem_map_of_mem Group.name hg')
    rcases List.mem_append.mp h1 with h1' | h1' <;> rcases List.mem_append.mp h2 with h2' | h2'
    · exact groupTask_functional env g e1 h1' e2 h2' hname hlab
    · exact absurd (cross e1 h1' e2 h2' hlab) (fun f => f)
    · exact absurd (cross e2 h2' e1 h1' hlab.symm) (fun f => f)
    · exact ih hndrest e1 h1' e2 h2' hname hlab

/-- C8 amended: within one collection pass, for every pair of emissions
with the same metric name and the same label set the emitted values are
equal, *provided* the top-level listing's entity names are pairwise
distinct.  (As stated over all listings the claim fails: all labels key on
the entity's name, so distinct entities with equal names can emit two
different values for the same (name, label-set) pair — see the
counterexample.) -/
theorem emission_values_functional (env : Env) (gs : Groups)
    (hg : env.groups = .ok gs) (hnd : (gs.results.map Group.name).Nodup) :
    ∀ e1 ∈ (getMetrics env).2, ∀ e2 ∈ (getMetrics env).2,
      e1.name = e2.name → e1.labels = e2.labels → e1.value = e2.value := by
  intro e1 h1 e2 h2 hname hlab
  simp only [getMetrics, hg] at h1 h2
  exact flatMap_groupTask_functional env gs.results hnd e1 h1 e2 h2 hname hlab

/-- C8 amended, witness: the scenario listing's names `A`, `B` are
distinct, and the pass's emissions are value-functional at cluster X's
status gauge. -/
theorem emission_values_functional_witness :
    (statusEmission gA "X" ⟨"APPLIED"⟩).value = (statusEmission gA "X" ⟨"APPLIED"⟩).value :=
  emission_values_functional scenarioEnv scenarioGroups rfl (by decide)
    (statusEmission gA "X" ⟨"APPLIED"⟩) (by decide)
    (statusEmission gA "X" ⟨"APPLIED"⟩) (by decide) rfl rfl

end Atlas
